import Mathlib

/-!
Shallow embedding of the discord-event-to-ics bot (calendar_builder.py,
event_handlers.py, file_helpers.py, config.py) and proofs about it.

Python datetimes are modelled as an absolute instant (seconds) plus a
timezone label; machine floats never matter here (GEO coordinates are kept
as the matched decimal literals).  Dict records are association lists with
Option Int values (Python int-or-None).  External collaborators (the Discord
fetch call, the channel cache, the environment) are passed in as functions.
-/

namespace DiscordICS

/-- Python aware datetime: an absolute instant in seconds since the epoch
together with a timezone label.  `astimezone` changes only the label,
`timedelta` addition changes only the instant, `.timestamp()` returns the
instant. -/
structure PyDateTime where
  instant : Int
  tz : String
deriving Repr, DecidableEq

def PyDateTime.astimezone (d : PyDateTime) (z : String) : PyDateTime :=
  ⟨d.instant, z⟩

def PyDateTime.addSeconds (d : PyDateTime) (s : Int) : PyDateTime :=
  ⟨d.instant + s, d.tz⟩

def PyDateTime.timestamp (d : PyDateTime) : Int := d.instant

/-- config.py line 41: `TIMEZONE = datetime.datetime.now().astimezone().tzinfo`
— the system-local timezone, not read from the environment. -/
def TIMEZONE : String := "system-local"

/-- Python `\s` characters (ASCII): space, tab, newline, carriage return,
vertical tab, form feed. -/
def isPySpace (c : Char) : Bool :=
  c = ' ' || c = '\t' || c = '\n' || c = '\r' || c = Char.ofNat 11 || c = Char.ofNat 12

/-- Python `str.strip()` with no arguments: drop leading and trailing
whitespace. -/
def pyStrip (s : String) : String :=
  String.mk (((s.toList.dropWhile isPySpace).reverse.dropWhile isPySpace).reverse)

/-- Python `str.rstrip("/")`: drop trailing slashes. -/
def rstripSlash (s : String) : String :=
  String.mk ((s.toList.reverse.dropWhile (fun c => c = '/')).reverse)

/-- Python `int(s)` on a string: strip whitespace, optional sign, decimal
digits; returns `none` where Python raises ValueError.  (Underscore digit
separators, accepted by Python, are not modelled; no input here uses them.) -/
def pyInt (s : String) : Option Int :=
  let cs := ((s.toList.dropWhile isPySpace).reverse.dropWhile isPySpace).reverse
  let stripped := match cs with
    | '-' :: rest => (true, rest)
    | '+' :: rest => (false, rest)
    | _ => (false, cs)
  let neg := stripped.1
  let ds := stripped.2
  if ds ≠ [] ∧ ds.all Char.isDigit then
    let v : Int := ds.foldl (fun a c => a * 10 + (Int.ofNat (c.toNat - 48))) 0
    some (if neg then -v else v)
  else none

/-- Python f-string rendering of an int-or-None value: `None` renders as
the string "None". -/
def pyShow : Option Int → String
  | none => "None"
  | some n => toString n

/-- Uppercase hex digit for a value below 16. -/
def hexDigit (n : Nat) : Char :=
  if n < 10 then Char.ofNat (48 + n) else Char.ofNat (55 + n)

/-- Per-byte encoding of Python `urllib.parse.quote_plus`: alphanumerics and
`_ . - ~` pass through, a space becomes `+`, anything else becomes `%XX`
with uppercase hex over the UTF-8 byte. -/
def quoteByte (b : UInt8) : List Char :=
  let n := b.toNat
  if (65 ≤ n ∧ n ≤ 90) ∨ (97 ≤ n ∧ n ≤ 122) ∨ (48 ≤ n ∧ n ≤ 57)
      ∨ n = 95 ∨ n = 46 ∨ n = 45 ∨ n = 126 then
    [Char.ofNat n]
  else if n = 32 then ['+']
  else ['%', hexDigit (n / 16), hexDigit (n % 16)]

/-- Python `urllib.parse.quote_plus` over the UTF-8 bytes of the string. -/
def quotePlus (s : String) : String :=
  String.mk ((s.toUTF8.toList.map quoteByte).flatten)

/-- Match `-?\d{1,3}\.\d+` at the head of the character list, returning the
matched characters and the remainder.  Greedy matching of `\d{1,3}` followed
by a mandatory `.` needs no backtracking: if more than three digits are
present the regex engine also fails, because every shorter digit run is
followed by a digit, not a dot. -/
def parseNumber (cs : List Char) : Option (List Char × List Char) :=
  let signSplit : List Char × List Char := match cs with
    | '-' :: rest => (['-'], rest)
    | _ => ([], cs)
  let sign := signSplit.1
  let cs1 := signSplit.2
  let ds := cs1.takeWhile Char.isDigit
  let rest := cs1.dropWhile Char.isDigit
  if ds.length < 1 ∨ 3 < ds.length then none
  else match rest with
    | '.' :: cs2 =>
      let fs := cs2.takeWhile Char.isDigit
      let rest2 := cs2.dropWhile Char.isDigit
      if fs.length = 0 then none
      else some (sign ++ ds ++ '.' :: fs, rest2)
    | _ => none

/-- calendar_builder.py line 23: the `_LAT_LON` regex
`^\s*(-?\d{1,3}\.\d+),\s*(-?\d{1,3}\.\d+)\s*$`; returns the two captured
groups on a match. -/
def latLonMatch (s : String) : Option (String × String) :=
  match parseNumber (s.toList.dropWhile isPySpace) with
  | none => none
  | some (g1, rest) =>
    match rest with
    | ',' :: rest1 =>
      match parseNumber (rest1.dropWhile isPySpace) with
      | none => none
      | some (g2, rest2) =>
        if (rest2.dropWhile isPySpace).isEmpty then some (String.mk g1, String.mk g2)
        else none
    | _ => none

/-- Discord scheduled-event entity metadata (the attributes read by
`_apply_location`); `none` models an absent attribute or a Python None. -/
structure EntityMetadata where
  location : Option String := none
  location_url : Option String := none
  channel_id : Option Int := none
deriving Repr, DecidableEq

/-- A channel from the bot cache; `name` is `none` when the object has no
name attribute, so that `getattr(chan, "name", default)` falls back. -/
structure Channel where
  name : Option String := none
deriving Repr, DecidableEq

/-- The attributes of a Discord ScheduledEvent that calendar_builder.py
reads.  Optional fields model attributes that may be absent or None. -/
structure ScheduledEvent where
  id : Int
  name : String
  start_time : PyDateTime
  end_time : Option PyDateTime := none
  description : Option String := none
  updated_at : Option PyDateTime := none
  last_updated_at : Option PyDateTime := none
  edited_timestamp : Option PyDateTime := none
  recurrence : Option (List String) := none
  entity_metadata : Option EntityMetadata := none
deriving Repr, DecidableEq

/-- GEO value: the two matched decimal literals (source converts them with
`float`; the exact decimal text is kept here). -/
structure Geo where
  latitude : String
  longitude : String
deriving Repr, DecidableEq

/-- An ics-py VALARM component.  Nothing in calendar_builder.py ever
constructs one. -/
structure Alarm where
deriving Repr, DecidableEq

/-- The ics-py Event object: the fields calendar_builder.py writes, plus
the `extra` ContentLine list and the `alarms` list, with the library's
empty defaults. -/
structure Event where
  uid : String := ""
  name : String := ""
  begin : Option PyDateTime := none
  end_ : Option PyDateTime := none
  description : String := ""
  location : Option String := none
  url : Option String := none
  geo : Option Geo := none
  extra : List (String × String) := []
  alarms : List Alarm := []
deriving Repr, DecidableEq

/-- calendar_builder.py `_add_prop`: append one ContentLine (name, value)
to a component's extra list. -/
def add_prop (extra : List (String × String)) (name value : String) :
    List (String × String) :=
  extra ++ [(name, value)]

/-- Python truthiness of a string-or-None attribute: None and the empty
string are falsy. -/
def truthyStr : Option String → Bool
  | none => false
  | some s => s ≠ ""

/-- calendar_builder.py lines 40-63, `_apply_location`: populate
LOCATION / GEO / URL.  `cache` stands for `bot.cache.get_channel`. -/
def apply_location (cache : Int → Option Channel) (e : Event)
    (meta : Option EntityMetadata) (guild_id : Option Int) (ev_id : Int) :
    Event :=
  match meta with
  | none => e
  | some m =>
    if truthyStr m.location then
      let l := m.location.getD ""
      let e1 := { e with location := some l }
      match latLonMatch l with
      | some g => { e1 with geo := some ⟨g.1, g.2⟩ }
      | none =>
        { e1 with url := some ("https://www.google.com/maps/search/" ++ quotePlus l) }
    else if truthyStr m.location_url then
      let u := m.location_url.getD ""
      { e with location := some u, url := some u }
    else
      match m.channel_id with
      | some ch_id =>
        if ch_id ≠ 0 then
          let chan_name := match cache ch_id with
            | some chan => chan.name.getD ("id " ++ toString ch_id)
            | none => "id " ++ toString ch_id
          { e with
            location := some ("Discord channel: " ++ chan_name),
            url := some ("https://discord.com/events/" ++ pyShow guild_id ++ "/"
                          ++ toString ev_id) }
        else e
      | none => e

/-- calendar_builder.py lines 66-70, `_apply_recurrence`: `if not recurrence`
(None or empty) add nothing, else the loop appends one RRULE ContentLine per
rule, in list order. -/
def apply_recurrence (e : Event) (recurrence : Option (List String)) : Event :=
  match recurrence with
  | none => e
  | some rules =>
    if rules = [] then e
    else { e with extra := e.extra ++ rules.map (fun r => ("RRULE", r)) }

/-- calendar_builder.py lines 78-105, `event_to_ics`: convert one Discord
ScheduledEvent to an ics Event.  `guild_id` is the value taken from the
index record (an int or None, rendered by the f-strings). -/
def event_to_ics (cache : Int → Option Channel) (ev : ScheduledEvent)
    (guild_id : Option Int) : Event :=
  let e0 : Event := {}
  let e1 := { e0 with uid := toString ev.id ++ "@discord-" ++ pyShow guild_id }
  let last_edit := ev.updated_at <|> ev.last_updated_at <|> ev.edited_timestamp
  let e2 := match last_edit with
    | some t => { e1 with extra := add_prop e1.extra "SEQUENCE" (toString t.timestamp) }
    | none => e1
  let e3 := { e2 with
    name := ev.name,
    begin := some (ev.start_time.astimezone TIMEZONE),
    end_ := some ((ev.end_time.getD (ev.start_time.addSeconds 3600)).astimezone TIMEZONE),
    description := pyStrip (ev.description.getD "") }
  let e4 := apply_recurrence e3 ev.recurrence
  apply_location cache e4 ev.entity_metadata guild_id ev.id

/-- A JSON index record: a Python dict with int-or-None values, modelled as
an association list so its key set is observable. -/
abbrev IndexRec := List (String × Option Int)

/-- The dict literal appended by the event handlers:
`{"guild_id": gid, "id": eid}` (event_handlers.py lines 66, 85, 168). -/
def mkRec (gid : Option Int) (eid : Int) : IndexRec :=
  [("guild_id", gid), ("id", some eid)]

/-- The membership guard shared by the three adding handlers:
`any(r["id"] == eid and r["guild_id"] == gid for r in idx)`. -/
def hasRec (idx : List IndexRec) (gid : Option Int) (eid : Int) : Bool :=
  idx.any (fun r => r.lookup "id" == some (some eid) && r.lookup "guild_id" == some gid)

/-- event_handlers.py lines 64-67 (`on_scheduled_event_create`): append the
record unless one with the same id and guild_id is present. -/
def on_scheduled_event_create_idx (gid : Option Int) (eid : Int)
    (idx : List IndexRec) : List IndexRec :=
  if hasRec idx gid eid then idx else idx ++ [mkRec gid eid]

/-- event_handlers.py lines 83-85 (`on_scheduled_event_user_add`): the same
guarded append. -/
def on_scheduled_event_user_add_idx (gid : Option Int) (eid : Int)
    (idx : List IndexRec) : List IndexRec :=
  if hasRec idx gid eid then idx else idx ++ [mkRec gid eid]

/-- event_handlers.py lines 166-168 (`sync_existing_events` inner loop):
`continue` when the record is present, else append. -/
def sync_existing_events_idx (gid : Option Int) (eid : Int)
    (idx : List IndexRec) : List IndexRec :=
  if hasRec idx gid eid then idx else idx ++ [mkRec gid eid]

/-- `rec["guild_id"]` as read by rebuild_calendar (line 127). -/
def gidOf (r : IndexRec) : Option Int := (r.lookup "guild_id").getD none

/-- `rec["id"]` as read by rebuild_calendar (line 127). -/
def eidOf (r : IndexRec) : Option Int := (r.lookup "id").getD none

/-- Outcome of `await bot.fetch_scheduled_event(gid, eid)`: a normal return
(possibly None) or a raised exception carrying an optional `status`
attribute (`getattr(exc, "status", None)`). -/
inductive FetchResult where
  | ok (ev : Option ScheduledEvent)
  | err (status : Option Int)
deriving Repr, DecidableEq

/-- calendar_builder.py lines 124-136, the per-record loop of
`rebuild_calendar`: returns the updated index (`updated_idx`) and the list
of events added to the calendar, in loop order.  A record is kept when the
fetch returns an event or raises with a status other than 404; it is
dropped when the fetch returns None or raises with status 404. -/
def rebuild_calendar (cache : Int → Option Channel)
    (fetch : Option Int → Option Int → FetchResult) (idx : List IndexRec) :
    List IndexRec × List Event :=
  match idx with
  | [] => ([], [])
  | r :: rest =>
    let tail := rebuild_calendar cache fetch rest
    match fetch (gidOf r) (eidOf r) with
    | .ok (some ev) => (r :: tail.1, event_to_ics cache ev (gidOf r) :: tail.2)
    | .ok none => tail
    | .err s => if s == some 404 then tail else (r :: tail.1, tail.2)

/-- calendar_builder.py lines 153-161, one iteration of the poller loop:
from the data directory's JSON files (stem paired with the index loaded for
it), the users for which `rebuild_calendar` is invoked, with their indices.
Stems that fail `int(...)` are skipped, and so are users whose loaded index
is empty (`if index:`). -/
def poll_iteration (files : List (String × List IndexRec)) :
    List (Int × List IndexRec) :=
  files.filterMap (fun p =>
    match pyInt p.1 with
    | none => none
    | some uid => if p.2.isEmpty then none else some (uid, p.2))

/-- The configuration values computed by config.py (TIMEZONE is set from
the system clock, independent of the environment, and is the constant
`TIMEZONE` above). -/
structure Config where
  token : String
  base_url : String
  http_port : Int
  poll_interval : Int
  data_dir : String
deriving Repr, DecidableEq

/-- config.py lines 29-49: read the environment.  Only a missing or blank
DISCORD_TOKEN raises; BASE_URL, HTTP_PORT, POLL_INTERVAL and DATA_DIR fall
back to defaults, and `int(...)` on a malformed provided value raises
ValueError (an `.error` here). -/
def loadConfig (env : String → Option String) : Except String Config :=
  let token := pyStrip ((env "DISCORD_TOKEN").getD "")
  if token = "" then
    .error "DISCORD_TOKEN environment variable is required"
  else
    let base_url := rstripSlash ((env "BASE_URL").getD "http://localhost")
    match pyInt ((env "HTTP_PORT").getD "9000") with
    | none => .error "invalid literal for int with base 10: HTTP_PORT"
    | some port =>
      match pyInt ((env "POLL_INTERVAL").getD "15") with
      | none => .error "invalid literal for int with base 10: POLL_INTERVAL"
      | some pollMinutes =>
        .ok { token := token, base_url := base_url, http_port := port,
              poll_interval := pollMinutes,
              data_dir := (env "DATA_DIR").getD "calendars" }

/-- SEQUENCE content lines of the converted event, as a list. -/
def seqLines (ev : ScheduledEvent) : List (String × String) :=
  ((ev.updated_at <|> ev.last_updated_at <|> ev.edited_timestamp).map
    (fun t => ("SEQUENCE", toString t.timestamp))).toList

/-- RRULE content lines of the converted event. -/
def rruleLines (ev : ScheduledEvent) : List (String × String) :=
  (ev.recurrence.getD []).map (fun r => ("RRULE", r))

/-- The event built by `event_to_ics` just before `_apply_location` runs. -/
def baseEvent (ev : ScheduledEvent) (g : Option Int) : Event :=
  { uid := toString ev.id ++ "@discord-" ++ pyShow g,
    name := ev.name,
    begin := some (ev.start_time.astimezone TIMEZONE),
    end_ := some ((ev.end_time.getD (ev.start_time.addSeconds 3600)).astimezone TIMEZONE),
    description := pyStrip (ev.description.getD ""),
    extra := seqLines ev ++ rruleLines ev }

/-! Sample inputs used by witnesses and counterexamples. -/

/-- A channel cache with no entries. -/
def cacheNone : Int → Option Channel := fun _ => none

/-- A channel cache resolving every id to a channel named general. -/
def cacheGeneral : Int → Option Channel := fun _ => some { name := some "general" }

def dtStart : PyDateTime := ⟨1700000000, "UTC"⟩

def dtEnd : PyDateTime := ⟨1700005000, "UTC"⟩

/-- A plain event: no end time, no edits, no recurrence, no metadata. -/
def evSample : ScheduledEvent := { id := 10, name := "Demo night", start_time := dtStart }

/-- An event with an end time. -/
def evWithEnd : ScheduledEvent :=
  { id := 11, name := "Bounded", start_time := dtStart, end_time := some dtEnd }

/-- An event carrying an updated_at timestamp. -/
def evEdited : ScheduledEvent :=
  { id := 7, name := "Edited", start_time := dtStart,
    updated_at := some ⟨1700100000, "UTC"⟩ }

/-- Metadata with a coordinate-shaped location. -/
def metaCoord : EntityMetadata := { location := some "40.6892,-74.0445" }

/-- Event located at a coordinate pair. -/
def evCoord : ScheduledEvent :=
  { id := 21, name := "Statue", start_time := dtStart, entity_metadata := some metaCoord }

/-- Metadata with only a channel id. -/
def metaChan : EntityMetadata := { channel_id := some 555 }

/-- Event held in a Discord channel. -/
def evChan : ScheduledEvent :=
  { id := 22, name := "VC hangout", start_time := dtStart, entity_metadata := some metaChan }

/-- Whether the rebuild loop keeps a record: kept on a returned event or a
non-404 exception, dropped on a returned None or a 404 exception. -/
def keepRecB (fetch : Option Int → Option Int → FetchResult) (r : IndexRec) : Bool :=
  match fetch (gidOf r) (eidOf r) with
  | .ok (some _) => true
  | .ok none => false
  | .err s => !(s == some 404)

/-- A fetch that always returns None (the library's behaviour for a vanished
event). -/
def fetchNone : Option Int → Option Int → FetchResult := fun _ _ => .ok none

/-- A fetch that always returns the sample event. -/
def fetchFound : Option Int → Option Int → FetchResult := fun _ _ => .ok (some evSample)

/-- Environment with only the token set. -/
def envTokenOnly : String → Option String :=
  fun k => if k = "DISCORD_TOKEN" then some "tok" else none

/-- Environment with nothing set. -/
def envEmpty : String → Option String := fun _ => none

/-! Lemma layer: the shape of the events produced by the builder. -/

/-- `apply_location` never changes the uid. -/
theorem apply_location_uid (c : Int → Option Channel) (e : Event)
    (m : Option EntityMetadata) (g : Option Int) (i : Int) :
    (apply_location c e m g i).uid = e.uid := by
  cases m with
  | none => rfl
  | some mm =>
    simp only [apply_location]
    repeat' split
    all_goals rfl

/-- `apply_location` never changes the extra content lines. -/
theorem apply_location_extra (c : Int → Option Channel) (e : Event)
    (m : Option EntityMetadata) (g : Option Int) (i : Int) :
    (apply_location c e m g i).extra = e.extra := by
  cases m with
  | none => rfl
  | some mm =>
    simp only [apply_location]
    repeat' split
    all_goals rfl

/-- `apply_location` never changes the alarms. -/
theorem apply_location_alarms (c : Int → Option Channel) (e : Event)
    (m : Option EntityMetadata) (g : Option Int) (i : Int) :
    (apply_location c e m g i).alarms = e.alarms := by
  cases m with
  | none => rfl
  | some mm =>
    simp only [apply_location]
    repeat' split
    all_goals rfl

/-- `apply_location` never changes the begin instant. -/
theorem apply_location_begin (c : Int → Option Channel) (e : Event)
    (m : Option EntityMetadata) (g : Option Int) (i : Int) :
    (apply_location c e m g i).begin = e.begin := by
  cases m with
  | none => rfl
  | some mm =>
    simp only [apply_location]
    repeat' split
    all_goals rfl

/-- `apply_location` never changes the end instant. -/
theorem apply_location_end (c : Int → Option Channel) (e : Event)
    (m : Option EntityMetadata) (g : Option Int) (i : Int) :
    (apply_location c e m g i).end_ = e.end_ := by
  cases m with
  | none => rfl
  | some mm =>
    simp only [apply_location]
    repeat' split
    all_goals rfl

/-- `apply_recurrence` only appends one RRULE line per rule to extra. -/
theorem apply_recurrence_shape (e : Event) (r : Option (List String)) :
    apply_recurrence e r
      = { e with extra := e.extra ++ (r.getD []).map (fun s => ("RRULE", s)) } := by
  cases r with
  | none => simp [apply_recurrence]
  | some rules => cases rules <;> simp [apply_recurrence]


/-- `event_to_ics` factors as `_apply_location` over `baseEvent`. -/
theorem event_to_ics_eq (c : Int → Option Channel) (ev : ScheduledEvent)
    (g : Option Int) :
    event_to_ics c ev g = apply_location c (baseEvent ev g) ev.entity_metadata g ev.id := by
  simp only [event_to_ics]
  rw [apply_recurrence_shape]
  cases h : (ev.updated_at <|> ev.last_updated_at <|> ev.edited_timestamp) with
  | none => simp [h, add_prop, seqLines, rruleLines, baseEvent]
  | some t => simp [h, add_prop, seqLines, rruleLines, baseEvent]


/-! Claim theorems. -/

/-- C2: event_to_ics assigns UID "{ev.id}@discord-{g}" (hence equal ids and
guild ids give equal UIDs), and emits a SEQUENCE content line with value the
integer Unix timestamp of the first available last-edit time (updated_at,
last_updated_at, edited_timestamp) exactly when one of them is present. -/
theorem c2_uid_and_sequence (cache : Int → Option Channel) (ev : ScheduledEvent)
    (g : Int) :
    (event_to_ics cache ev (some g)).uid = toString ev.id ++ "@discord-" ++ toString g
    ∧ (∀ (cache2 : Int → Option Channel) (ev2 : ScheduledEvent), ev2.id = ev.id →
        (event_to_ics cache2 ev2 (some g)).uid = (event_to_ics cache ev (some g)).uid)
    ∧ (event_to_ics cache ev (some g)).extra.filter (fun p => p.1 == "SEQUENCE")
        = ((ev.updated_at <|> ev.last_updated_at <|> ev.edited_timestamp).map
            (fun t => ("SEQUENCE", toString t.timestamp))).toList := by
  have huid : ∀ (c2 : Int → Option Channel) (e2 : ScheduledEvent),
      (event_to_ics c2 e2 (some g)).uid = toString e2.id ++ "@discord-" ++ toString g := by
    intro c2 e2
    rw [event_to_ics_eq, apply_location_uid]
    rfl
  have hextra : (event_to_ics cache ev (some g)).extra = seqLines ev ++ rruleLines ev := by
    rw [event_to_ics_eq, apply_location_extra]; rfl
  refine ⟨huid cache ev, fun c2 e2 h => ?_, ?_⟩
  · rw [huid, huid, h]
  · rw [hextra, List.filter_append]
    have h1 : (rruleLines ev).filter (fun p => p.1 == "SEQUENCE") = [] := by
      simp [rruleLines, List.filter_map]
    rw [h1, List.append_nil]
    cases h : (ev.updated_at <|> ev.last_updated_at <|> ev.edited_timestamp) <;>
      simp [seqLines, h]

/-- Witness for C2 at a concrete edited event. -/
theorem c2_witness :
    (event_to_ics cacheNone evEdited (some 5)).uid = "7@discord-5"
    ∧ (event_to_ics cacheGeneral evEdited (some 5)).uid
        = (event_to_ics cacheNone evEdited (some 5)).uid
    ∧ (event_to_ics cacheNone evEdited (some 5)).extra.filter (fun p => p.1 == "SEQUENCE")
        = [("SEQUENCE", "1700100000")] := by
  have h := c2_uid_and_sequence cacheNone evEdited 5
  refine ⟨?_, h.2.1 cacheGeneral evEdited rfl, ?_⟩
  · rw [h.1]; rfl
  · rw [h.2.2]; rfl

/-- C4: the VEVENT's RRULE content lines are exactly one line per string of
the event's recurrence list, values equal and in list order; an absent, None
or empty recurrence yields no RRULE lines. -/
theorem c4_rrule_lines (cache : Int → Option Channel) (ev : ScheduledEvent)
    (g : Option Int) :
    ((event_to_ics cache ev g).extra.filter (fun p => p.1 == "RRULE")).map Prod.snd
      = ev.recurrence.getD [] := by
  have hextra : (event_to_ics cache ev g).extra = seqLines ev ++ rruleLines ev := by
    rw [event_to_ics_eq, apply_location_extra]; rfl
  rw [hextra, List.filter_append]
  have h1 : (seqLines ev).filter (fun p => p.1 == "RRULE") = [] := by
    cases h : (ev.updated_at <|> ev.last_updated_at <|> ev.edited_timestamp) <;>
      simp [seqLines, h]
  rw [h1, List.nil_append]
  simp [rruleLines, List.filter_map, Function.comp]

/-- C5 (amended): event_to_ics attaches location, geo, recurrence and
UID/SEQUENCE but never any alarm component: the produced VEVENT's alarm
list is always empty. -/
theorem c5_no_alarms (cache : Int → Option Channel) (ev : ScheduledEvent)
    (g : Option Int) :
    (event_to_ics cache ev g).alarms = [] := by
  rw [event_to_ics_eq, apply_location_alarms]
  rfl

/-- Counterexample for C5 as stated: a concrete conversion produces a VEVENT
with no alarm components at all. -/
theorem c5_counterexample :
    (event_to_ics cacheNone evSample (some 1)).alarms = [] := rfl

/-- C9: the VEVENT's begin is the start time in the configured timezone and
its end is the end time (or start plus one hour when the end is absent) in
the configured timezone, so both are always set. -/
theorem c9_begin_end (cache : Int → Option Channel) (ev : ScheduledEvent)
    (g : Option Int) :
    (event_to_ics cache ev g).begin = some (ev.start_time.astimezone TIMEZONE)
    ∧ (ev.end_time = none →
        (event_to_ics cache ev g).end_
          = some ((ev.start_time.addSeconds 3600).astimezone TIMEZONE))
    ∧ (∀ t, ev.end_time = some t →
        (event_to_ics cache ev g).end_ = some (t.astimezone TIMEZONE)) := by
  have hb : (event_to_ics cache ev g).begin = some (ev.start_time.astimezone TIMEZONE) := by
    rw [event_to_ics_eq, apply_location_begin]; rfl
  have he : (event_to_ics cache ev g).end_
      = some ((ev.end_time.getD (ev.start_time.addSeconds 3600)).astimezone TIMEZONE) := by
    rw [event_to_ics_eq, apply_location_end]; rfl
  refine ⟨hb, fun h => ?_, fun t h => ?_⟩
  · rw [he, h]; rfl
  · rw [he, h]; rfl

/-- Witness for C9: a one-hour default end for an event without end_time,
and the given end for an event with one. -/
theorem c9_witness :
    (event_to_ics cacheNone evSample (some 1)).end_
        = some ((dtStart.addSeconds 3600).astimezone TIMEZONE)
    ∧ (event_to_ics cacheNone evWithEnd (some 1)).end_
        = some (dtEnd.astimezone TIMEZONE) :=
  ⟨(c9_begin_end cacheNone evSample (some 1)).2.1 rfl,
   (c9_begin_end cacheNone evWithEnd (some 1)).2.2 dtEnd rfl⟩

/-- C3: the four location cases of the conversion, for an event with entity
metadata.  A non-empty location matching the lat,lon pattern gives LOCATION
plus GEO and no URL; a non-matching one gives a percent-encoded Google Maps
search URL and no GEO; otherwise a non-empty location_url becomes both
LOCATION and URL; otherwise a (truthy) channel_id gives a Discord-channel
LOCATION and the discord.com event link. -/
theorem c3_location_cases (cache : Int → Option Channel) (ev : ScheduledEvent)
    (g : Int) (m : EntityMetadata) (hm : ev.entity_metadata = some m) :
    (∀ l a b, m.location = some l → l ≠ "" → latLonMatch l = some (a, b) →
      (event_to_ics cache ev (some g)).location = some l
        ∧ (event_to_ics cache ev (some g)).geo = some ⟨a, b⟩
        ∧ (event_to_ics cache ev (some g)).url = none)
    ∧ (∀ l, m.location = some l → l ≠ "" → latLonMatch l = none →
      (event_to_ics cache ev (some g)).geo = none
        ∧ (event_to_ics cache ev (some g)).url
            = some ("https://www.google.com/maps/search/" ++ quotePlus l)
        ∧ (event_to_ics cache ev (some g)).location = some l)
    ∧ (∀ u, truthyStr m.location = false → m.location_url = some u → u ≠ "" →
      (event_to_ics cache ev (some g)).location = some u
        ∧ (event_to_ics cache ev (some g)).url = some u)
    ∧ (∀ ch, truthyStr m.location = false → truthyStr m.location_url = false →
        m.channel_id = some ch → ch ≠ 0 →
      (event_to_ics cache ev (some g)).location
          = some ("Discord channel: " ++
              (match cache ch with
               | some chan => chan.name.getD ("id " ++ toString ch)
               | none => "id " ++ toString ch))
        ∧ (event_to_ics cache ev (some g)).url
            = some ("https://discord.com/events/" ++ toString g ++ "/"
                     ++ toString ev.id)) := by
  rw [event_to_ics_eq, hm]
  refine ⟨fun l a b hl hne hmt => ?_, fun l hl hne hmt => ?_,
          fun u hl hu hune => ?_, fun ch hl hu hch hne => ?_⟩
  · simp [apply_location, truthyStr, hl, hne, hmt, baseEvent]
  · simp [apply_location, truthyStr, hl, hne, hmt, baseEvent]
  · have htu : truthyStr (some u) = true := by simp [truthyStr, hune]
    simp [apply_location, hl, hu, htu]
  · simp [apply_location, hl, hu, hch, hne, pyShow]


/-- Witness for C3: the coordinate case and the channel case at concrete
inputs. -/
theorem c3_witness :
    ((event_to_ics cacheNone evCoord (some 3)).location = some "40.6892,-74.0445"
      ∧ (event_to_ics cacheNone evCoord (some 3)).geo = some ⟨"40.6892", "-74.0445"⟩
      ∧ (event_to_ics cacheNone evCoord (some 3)).url = none)
    ∧ ((event_to_ics cacheGeneral evChan (some 3)).location
          = some "Discord channel: general"
      ∧ (event_to_ics cacheGeneral evChan (some 3)).url
          = some "https://discord.com/events/3/22") := by
  have h1 := (c3_location_cases cacheNone evCoord 3 metaCoord rfl).1
    "40.6892,-74.0445" "40.6892" "-74.0445" rfl (by decide) (by decide)
  have h2 := (c3_location_cases cacheGeneral evChan 3 metaChan rfl).2.2.2
    555 rfl rfl rfl (by decide)
  refine ⟨h1, ⟨?_, ?_⟩⟩
  · rw [h2.1]; rfl
  · rw [h2.2]; rfl

/-- C10: adding a (guild_id, id) pair already present leaves the stored
index unchanged in all three adding code paths, so duplicate notifications
are idempotent on the index. -/
theorem c10_idempotent_add (gid : Option Int) (eid : Int) (idx : List IndexRec)
    (h : ∃ r ∈ idx, r.lookup "id" = some (some eid) ∧ r.lookup "guild_id" = some gid) :
    on_scheduled_event_create_idx gid eid idx = idx
    ∧ on_scheduled_event_user_add_idx gid eid idx = idx
    ∧ sync_existing_events_idx gid eid idx = idx := by
  have hb : hasRec idx gid eid = true := by
    obtain ⟨r, hr, h1, h2⟩ := h
    exact List.any_eq_true.mpr ⟨r, hr, by simp [h1, h2]⟩
  simp [on_scheduled_event_create_idx, on_scheduled_event_user_add_idx,
        sync_existing_events_idx, hb]

/-- Witness for C10 on a one-record index. -/
theorem c10_witness :
    on_scheduled_event_create_idx (some 1) 2 [mkRec (some 1) 2] = [mkRec (some 1) 2]
    ∧ on_scheduled_event_user_add_idx (some 1) 2 [mkRec (some 1) 2] = [mkRec (some 1) 2]
    ∧ sync_existing_events_idx (some 1) 2 [mkRec (some 1) 2] = [mkRec (some 1) 2] :=
  c10_idempotent_add (some 1) 2 [mkRec (some 1) 2]
    ⟨mkRec (some 1) 2, by decide, by decide, by decide⟩

/-- C7 (amended): every record the adding handlers put into an index is
either one that was already there or the freshly appended pair, whose keys
are exactly guild_id and id (not event_id). -/
theorem c7_record_keys (gid : Option Int) (eid : Int) (idx : List IndexRec)
    (r : IndexRec) :
    (r ∈ on_scheduled_event_create_idx gid eid idx →
      r ∈ idx ∨ r.map Prod.fst = ["guild_id", "id"])
    ∧ (r ∈ on_scheduled_event_user_add_idx gid eid idx →
      r ∈ idx ∨ r.map Prod.fst = ["guild_id", "id"])
    ∧ (r ∈ sync_existing_events_idx gid eid idx →
      r ∈ idx ∨ r.map Prod.fst = ["guild_id", "id"]) := by
  have key : r ∈ (if hasRec idx gid eid then idx else idx ++ [mkRec gid eid]) →
      r ∈ idx ∨ r.map Prod.fst = ["guild_id", "id"] := by
    intro h
    split at h
    · exact Or.inl h
    · rcases List.mem_append.mp h with h2 | h2
      · exact Or.inl h2
      · rw [List.mem_singleton.mp h2]
        exact Or.inr rfl
  exact ⟨key, key, key⟩

/-- Witness for C7 on a fresh index. -/
theorem c7_witness :
    mkRec (some 1) 2 ∈ on_scheduled_event_create_idx (some 1) 2 []
    ∧ (mkRec (some 1) 2 ∈ ([] : List IndexRec)
        ∨ (mkRec (some 1) 2).map Prod.fst = ["guild_id", "id"]) :=
  ⟨by decide, (c7_record_keys (some 1) 2 [] (mkRec (some 1) 2)).1 (by decide)⟩

/-- Counterexample for C7 as stated: the record appended for guild 1,
event 2 has keys guild_id and id; there is no key event_id. -/
theorem c7_counterexample :
    on_scheduled_event_create_idx (some 1) 2 []
        = [[("guild_id", some 1), ("id", some 2)]]
    ∧ (mkRec (some 1) 2).map Prod.fst = ["guild_id", "id"]
    ∧ "event_id" ∉ (mkRec (some 1) 2).map Prod.fst := by decide


/-- The updated index computed by the rebuild loop is the filter of the old
one by keepRecB. -/
theorem rebuild_calendar_fst (c : Int → Option Channel)
    (f : Option Int → Option Int → FetchResult) (idx : List IndexRec) :
    (rebuild_calendar c f idx).1 = idx.filter (keepRecB f) := by
  induction idx with
  | nil => rfl
  | cons r rest ih =>
    simp only [rebuild_calendar]
    cases hf : f (gidOf r) (eidOf r) with
    | ok o => cases o <;> simp [List.filter_cons, keepRecB, hf, ih]
    | err s =>
      by_cases h4 : s = some 404
      · simp [List.filter_cons, keepRecB, hf, h4, ih]
      · simp [List.filter_cons, keepRecB, hf, h4, ih]

/-- The calendar events collected by the rebuild loop: one converted event
per record whose fetch returned an event. -/
theorem rebuild_calendar_snd (c : Int → Option Channel)
    (f : Option Int → Option Int → FetchResult) (idx : List IndexRec) :
    (rebuild_calendar c f idx).2
      = idx.filterMap (fun r =>
          match f (gidOf r) (eidOf r) with
          | .ok (some ev) => some (event_to_ics c ev (gidOf r))
          | _ => none) := by
  induction idx with
  | nil => rfl
  | cons r rest ih =>
    simp only [rebuild_calendar]
    cases hf : f (gidOf r) (eidOf r) with
    | ok o => cases o <;> simp [List.filterMap_cons, hf, ih]
    | err s =>
      by_cases h4 : s = some 404
      · simp [List.filterMap_cons, hf, h4, ih]
      · simp [List.filterMap_cons, hf, h4, ih]

/-- The drop condition, unfolded. -/
theorem keepRecB_false_iff (f : Option Int → Option Int → FetchResult)
    (r : IndexRec) :
    keepRecB f r = false ↔
      f (gidOf r) (eidOf r) = .err (some 404) ∨ f (gidOf r) (eidOf r) = .ok none := by
  unfold keepRecB
  cases hf : f (gidOf r) (eidOf r) with
  | ok o => cases o <;> simp
  | err s =>
    by_cases h4 : s = some 404 <;> simp [h4]

/-- C1 (amended): in rebuild_calendar, a tracked record is dropped from the
updated index exactly when its fetch raises with status 404 or returns no
event; when the fetch returns an event the record is kept and the converted
event is added to the calendar; when the fetch raises with any status other
than 404 the record is retained (the event is merely omitted). -/
theorem c1_drop_semantics (c : Int → Option Channel)
    (f : Option Int → Option Int → FetchResult) (idx : List IndexRec)
    (r : IndexRec) (hr : r ∈ idx) :
    (r ∉ (rebuild_calendar c f idx).1 ↔
      f (gidOf r) (eidOf r) = .err (some 404) ∨ f (gidOf r) (eidOf r) = .ok none)
    ∧ (∀ ev, f (gidOf r) (eidOf r) = .ok (some ev) →
        r ∈ (rebuild_calendar c f idx).1
          ∧ event_to_ics c ev (gidOf r) ∈ (rebuild_calendar c f idx).2)
    ∧ (∀ s, f (gidOf r) (eidOf r) = .err s → s ≠ some 404 →
        r ∈ (rebuild_calendar c f idx).1) := by
  have hmem : r ∈ (rebuild_calendar c f idx).1 ↔ keepRecB f r = true := by
    rw [rebuild_calendar_fst]
    constructor
    · exact fun h => (List.mem_filter.mp h).2
    · exact fun h => List.mem_filter.mpr ⟨hr, h⟩
  refine ⟨?_, fun ev hf => ?_, fun s hf hne => ?_⟩
  · rw [← keepRecB_false_iff]
    constructor
    · intro h
      cases hkeep : keepRecB f r with
      | false => rfl
      | true => exact absurd (hmem.mpr hkeep) h
    · intro h hmem2
      rw [hmem.mp hmem2] at h
      cases h
  · constructor
    · exact hmem.mpr (by simp [keepRecB, hf])
    · rw [rebuild_calendar_snd]
      exact List.mem_filterMap.mpr ⟨r, hr, by rw [hf]⟩
  · exact hmem.mpr (by simp [keepRecB, hf, hne])

/-- Counterexample for C1 as stated: the fetch succeeds (returns None, with
no exception and no 404 status) and the record is nevertheless dropped. -/
theorem c1_counterexample :
    (rebuild_calendar cacheNone fetchNone [mkRec (some 1) 2]).1 = []
    ∧ fetchNone (gidOf (mkRec (some 1) 2)) (eidOf (mkRec (some 1) 2)) = .ok none :=
  ⟨rfl, rfl⟩

/-- Witness for C1: a record whose fetch returns an event is kept, and its
conversion lands in the calendar. -/
theorem c1_witness :
    mkRec (some 1) 2 ∈ (rebuild_calendar cacheNone fetchFound [mkRec (some 1) 2]).1
    ∧ event_to_ics cacheNone evSample (gidOf (mkRec (some 1) 2))
        ∈ (rebuild_calendar cacheNone fetchFound [mkRec (some 1) 2]).2 :=
  (c1_drop_semantics cacheNone fetchFound [mkRec (some 1) 2] (mkRec (some 1) 2)
      (List.mem_singleton.mpr rfl)).2.1 evSample rfl

/-- C8 (amended): in each poller iteration, a rebuild is invoked exactly for
the users whose JSON file stem parses as an int and whose loaded index is
non-empty; the every-N-minutes cadence is modelled as successive loop
iterations. -/
theorem c8_poll_iteration_mem (files : List (String × List IndexRec))
    (uid : Int) (idx : List IndexRec) :
    (uid, idx) ∈ poll_iteration files ↔
      ∃ stem, (stem, idx) ∈ files ∧ pyInt stem = some uid ∧ idx ≠ [] := by
  unfold poll_iteration
  rw [List.mem_filterMap]
  constructor
  · rintro ⟨⟨stem, idx2⟩, hmem, hf⟩
    dsimp at hf
    cases hp : pyInt stem with
    | none => rw [hp] at hf; cases hf
    | some u =>
      rw [hp] at hf
      dsimp only at hf
      by_cases he : idx2.isEmpty
      · simp [he] at hf
      · rw [if_neg he] at hf
        rw [Option.some.injEq, Prod.mk.injEq] at hf
        obtain ⟨h1, h2⟩ := hf
        subst h1; subst h2
        exact ⟨stem, hmem, hp, by simpa [List.isEmpty_iff] using he⟩
  · rintro ⟨stem, hmem, hp, hne⟩
    refine ⟨(stem, idx), hmem, ?_⟩
    have he : idx.isEmpty = false := by simpa [List.isEmpty_iff] using hne
    simp [hp, he]

/-- Witness for C8: a numeric stem with a non-empty index is rebuilt. -/
theorem c8_witness :
    ((42 : Int), [mkRec (some 1) 2]) ∈ poll_iteration [("42", [mkRec (some 1) 2])] :=
  (c8_poll_iteration_mem [("42", [mkRec (some 1) 2])] 42 [mkRec (some 1) 2]).mpr
    ⟨"42", List.mem_singleton.mpr rfl, by decide, by decide⟩

/-- Counterexample for C8 as stated: user 42 has a JSON index file (stem
"42", loaded index empty) but no rebuild is invoked for any user in that
iteration. -/
theorem c8_counterexample :
    poll_iteration [("42", [])] = [] ∧ pyInt "42" = some 42 :=
  ⟨rfl, by decide⟩


/-- C6 (amended): configuration loading fails fast only when the token is
missing or blank (or a provided port/poll-interval value is not an
integer); a missing base URL, port, poll interval or data directory falls
back to a default, and the timezone is taken from the system clock, not the
environment. -/
theorem c6_only_token_required (env : String → Option String) :
    (env "DISCORD_TOKEN" = none →
      loadConfig env = .error "DISCORD_TOKEN environment variable is required")
    ∧ ((∃ cfg, loadConfig env = .ok cfg) ↔
        (pyStrip ((env "DISCORD_TOKEN").getD "") ≠ ""
          ∧ (pyInt ((env "HTTP_PORT").getD "9000")).isSome
          ∧ (pyInt ((env "POLL_INTERVAL").getD "15")).isSome)) := by
  constructor
  · intro h
    have hz : pyStrip ((env "DISCORD_TOKEN").getD "") = "" := by rw [h]; rfl
    simp [loadConfig, hz]
  · by_cases h1 : pyStrip ((env "DISCORD_TOKEN").getD "") = ""
    · simp [loadConfig, h1]
    · cases h2 : pyInt ((env "HTTP_PORT").getD "9000") with
      | none => simp [loadConfig, h1, h2]
      | some p =>
        cases h3 : pyInt ((env "POLL_INTERVAL").getD "15") with
        | none => simp [loadConfig, h1, h2, h3]
        | some q => simp [loadConfig, h1, h2, h3]

/-- Witness for C6: with an empty environment, loading raises the
token-required error. -/
theorem c6_witness :
    loadConfig envEmpty = .error "DISCORD_TOKEN environment variable is required" :=
  (c6_only_token_required envEmpty).1 rfl

/-- Counterexample for C6 as stated: BASE_URL, HTTP_PORT, POLL_INTERVAL and
DATA_DIR are all missing from the environment, yet loading succeeds with
the defaults. -/
theorem c6_counterexample :
    envTokenOnly "BASE_URL" = none ∧ envTokenOnly "HTTP_PORT" = none
    ∧ envTokenOnly "POLL_INTERVAL" = none ∧ envTokenOnly "DATA_DIR" = none
    ∧ loadConfig envTokenOnly
        = .ok { token := "tok", base_url := "http://localhost", http_port := 9000,
                poll_interval := 15, data_dir := "calendars" } := by
  refine ⟨by decide, by decide, by decide, by decide, rfl⟩

end DiscordICS
